import Mathlib

/-!
Shallow embedding of the `instantly-dashboard` repository
(`src/app.py`, `src/instantly_client.py`).

Python dictionaries holding lead / campaign records are modelled as Lean
structures with `Option`-typed fields: `none` models an absent key, so that
`d.get(k)` becomes `Option.getD` (with the source's default) and Python
truthiness of `d.get(k)` for a string field is `emailTruthy`-style tests.
HTTP transports are modelled as oracle functions passed in explicitly;
the value returned alongside each operation's result records the requests
actually issued upstream, so "no round-trip happened" is expressible.
-/

namespace InstantlyDashboard

/-- An upstream lead record as `app.py` reads it: the fields the dashboard
touches (`email`, `company_name`, `status`).  `none` models a missing key. -/
structure Lead where
  email : Option String
  company_name : Option String
  status : Option Int
deriving DecidableEq, Repr

/-- `CLINIC_KEYWORDS` from `src/app.py` lines 44-45. -/
def CLINIC_KEYWORDS : List String :=
  ["clinic", "medicine", "wellness", "health", "naturopathic",
   "integrative", "holistic", "doctor", "dr.", "medical"]

/-- `pat` is a prefix of `s` (character lists). -/
def charsStart : List Char → List Char → Bool
  | [], _ => true
  | _ :: _, [] => false
  | c :: cs, d :: ds => c == d && charsStart cs ds

/-- `pat` occurs as a contiguous run inside `s` (character lists). -/
def charsSub (pat : List Char) : List Char → Bool
  | [] => pat.isEmpty
  | d :: ds => charsStart pat (d :: ds) || charsSub pat ds

/-- Python's substring test `pat in s`. -/
def strContains (s pat : String) : Bool :=
  charsSub pat.toList s.toList

/-- Python's `.lower()`, character by character (the configured keywords are
ASCII, so the ASCII case fold is the relevant behaviour). -/
def strLower (s : String) : String :=
  ⟨s.data.map Char.toLower⟩

/-- Python truthiness of `l.get('email')`: the key is present and nonempty. -/
def emailTruthy : Option String → Bool
  | none => false
  | some s => !(s == "")

/-- The filter predicate of `filter_clinic_leads` (`src/app.py` lines 119-123):
`l.get('email') and l.get('email') != 'No email' and
any(kw in l.get('company_name', '').lower() for kw in CLINIC_KEYWORDS)`. -/
def clinicPred (l : Lead) : Bool :=
  emailTruthy l.email && !(l.email == some "No email") &&
    CLINIC_KEYWORDS.any (fun kw => strContains (strLower (l.company_name.getD "")) kw)

/-- `filter_clinic_leads` from `src/app.py` lines 117-124. -/
def filter_clinic_leads (leads : List Lead) : List Lead :=
  leads.filter clinicPred

/-- A lead has a usable email: present, nonempty and not the sentinel. -/
def usableEmail (l : Lead) : Bool :=
  emailTruthy l.email && !(l.email == some "No email")

/-- The email set of the clinic-matching leads, `src/app.py` line 212
(`clinic_emails = {l.get('email') for l in clinic_leads}`; a Python set,
modelled as a list queried by membership only). -/
def clinicEmails (leads : List Lead) : List (Option String) :=
  (filter_clinic_leads leads).map (fun l => l.email)

/-- The `other` view of `src/app.py` line 213:
`[l for l in all_leads if l.get('email') not in clinic_emails]`. -/
def other_leads (all_leads : List Lead) : List Lead :=
  all_leads.filter (fun l => !((clinicEmails all_leads).contains l.email))

/-- The `stats` object of the `/api/campaign/stats` response. -/
structure Stats where
  total_leads : Nat
  clinic_leads : Nat
  other_leads : Nat
  active_leads : Nat
  pending_leads : Nat
deriving DecidableEq, Repr

/-- The stats computation of `campaign_stats`, `src/app.py` lines 158-181,
as a function of the drained lead set. -/
def campaign_stats (all_leads : List Lead) : Stats :=
  let clinic_leads := filter_clinic_leads all_leads
  let active_leads := clinic_leads.filter (fun l => l.status == some 1)
  let pending_leads := clinic_leads.filter (fun l => l.status == some 0)
  { total_leads := all_leads.length
    clinic_leads := clinic_leads.length
    other_leads := all_leads.length - clinic_leads.length
    active_leads := active_leads.length
    pending_leads := pending_leads.length }

/-- The `pagination` object of the `/api/campaign/leads` response. -/
structure PageInfo where
  page : Nat
  per_page : Nat
  total : Nat
  pages : Nat
deriving DecidableEq, Repr

/-- The display pagination of `campaign_leads`, `src/app.py` lines 217-241:
`start = (page - 1) * per_page`, `end = start + per_page`,
`page_leads = leads[start:end]`, `pages = (total + per_page - 1) // per_page`.
Generic in the element type, as Python list slicing is.  The claims only
concern `page >= 1`, `per_page > 0`, where Python's slice of nonnegative
indices agrees with `drop`/`take`. -/
def paginate {α : Type} (leads : List α) (page per_page : Nat) :
    List α × PageInfo :=
  let total := leads.length
  let start := (page - 1) * per_page
  let page_leads := (leads.drop start).take per_page
  (page_leads,
   { page := page, per_page := per_page, total := total
     pages := (total + per_page - 1) / per_page })

/-! ### Full-drain pagination (`get_all_campaign_leads`, `src/app.py` 90-114) -/

/-- One upstream answer to a `leads/list` page request, as the drain loop
observes it: the request raised (`err`), or a parsed response whose `items`
key is absent (`page none`) or holds a list (`page (some xs)`). -/
inductive DrainResp
  | err
  | page (items : Option (List Lead))
deriving DecidableEq, Repr

/-- The loop body of `get_all_campaign_leads`.  `upstream skip` is the answer
to the `leads/list` request at offset `skip` (the request always carries
`limit = 100`); the returned pair is the accumulated leads and the list of
`(skip, limit)` requests issued.  The source loop is `while True`; `fuel`
bounds the number of requests so the function is total, and every claim is
stated with enough fuel. -/
def drainLoop (upstream : Nat → DrainResp) :
    Nat → Nat → List Lead → List (Nat × Nat) → List Lead × List (Nat × Nat)
  | 0, _, acc, reqs => (acc, reqs)
  | fuel + 1, skip, acc, reqs =>
    let reqs' := reqs ++ [(skip, 100)]
    match upstream skip with
    | .err => (acc, reqs')
    | .page none => (acc, reqs')
    | .page (some xs) =>
      if xs.isEmpty then (acc, reqs')
      else if xs.length < 100 then (acc ++ xs, reqs')
      else drainLoop upstream fuel (skip + 100) (acc ++ xs) reqs'

/-- `get_all_campaign_leads` from `src/app.py` lines 90-114: start at
`skip = 0` with no accumulated leads. -/
def get_all_campaign_leads (upstream : Nat → DrainResp) (fuel : Nat) :
    List Lead × List (Nat × Nat) :=
  drainLoop upstream fuel 0 [] []

/-- A response at which the drain loop stops: a request error, a response
without items, or a page shorter than the full page size. -/
def stopResp : DrainResp → Prop
  | .err => True
  | .page none => True
  | .page (some xs) => xs.length < 100

/-- The leads the loop still appends when it stops at the given response
(a nonempty short page is appended; an error or empty answer is not;
appending the empty page is the same as appending nothing). -/
def stopLeads : DrainResp → List Lead
  | .err => []
  | .page none => []
  | .page (some xs) => xs

/-! ### The generic API client (`InstantlyClient._make_request`,
`src/instantly_client.py` 31-52) -/

/-- A single HTTP round-trip the client performs: method, endpoint, and the
payload it forwards (`requests.delete` is called without the payload). -/
structure ReqRec (α : Type) where
  method : String
  endpoint : String
  data : Option α
deriving DecidableEq, Repr

/-- How a `_make_request` call ends when it does not return a body:
`requestException` models the logged-and-re-raised
`requests.exceptions.RequestException`; `unboundLocal` models the
`UnboundLocalError` raised at `response.raise_for_status()` when no dispatch
branch bound `response` (that error is not a `RequestException`, so the
`except` clause does not catch it). -/
inductive PyErr
  | requestException
  | unboundLocal
deriving DecidableEq, Repr

/-- Outcome of one performed round-trip: a transport/HTTP-status failure is
surfaced as `requestException` (logged, then re-raised to the caller). -/
def sendResult {β : Type} : Except Unit β → Except PyErr β
  | .ok v => .ok v
  | .error _ => .error .requestException

/-- `InstantlyClient._make_request`, `src/instantly_client.py` lines 31-52.
`http` is the transport oracle; the second component of the result is the
list of round-trips actually performed.  The dispatch covers exactly
`GET`, `POST`, `PUT`, `DELETE`; any other method falls through every branch
and fails with `unboundLocal` without consulting the transport. -/
def make_request {α β : Type} (http : ReqRec α → Except Unit β)
    (method endpoint : String) (data : α) : Except PyErr β × List (ReqRec α) :=
  if method = "GET" then
    let req : ReqRec α := ⟨method, endpoint, some data⟩
    (sendResult (http req), [req])
  else if method = "POST" then
    let req : ReqRec α := ⟨method, endpoint, some data⟩
    (sendResult (http req), [req])
  else if method = "PUT" then
    let req : ReqRec α := ⟨method, endpoint, some data⟩
    (sendResult (http req), [req])
  else if method = "DELETE" then
    let req : ReqRec α := ⟨method, endpoint, none⟩
    (sendResult (http req), [req])
  else
    (.error .unboundLocal, [])

/-! ### Start / pause (`src/app.py` 247-291) -/

/-- `CAMPAIGN_ID` from `src/app.py` line 43. -/
def CAMPAIGN_ID : String := "bfe30fd9-3417-410f-800b-7b8e7151a965"

/-- The JSON payload of the start/pause mutation. -/
structure PausedPatch where
  paused : Bool
deriving DecidableEq, Repr

/-- The JSON body and HTTP status a start/pause handler returns.  The source
interpolates `str(e)` into the failure message; the model keeps the fixed
message prefix. -/
structure MutationOutcome where
  success : Bool
  message : String
  note : Option String
  http_status : Nat
deriving DecidableEq, Repr

/-- `start_campaign` from `src/app.py` lines 247-268 (the handler body after
client construction): one `_make_request("PATCH", ...)` with
`{"paused": false}`; the inner `except Exception` turns any raised error
into the structured `success: false` body with status 400. -/
def start_campaign (http : ReqRec PausedPatch → Except Unit Unit) :
    MutationOutcome × List (ReqRec PausedPatch) :=
  match make_request http "PATCH" ("campaigns/" ++ CAMPAIGN_ID) ⟨false⟩ with
  | (.ok _, trips) =>
    ({ success := true, message := "Campaign started successfully",
       note := none, http_status := 200 }, trips)
  | (.error _, trips) =>
    ({ success := false, message := "Could not start campaign via API",
       note := some "You may need to start the campaign manually in the Instantly.ai dashboard.",
       http_status := 400 }, trips)

/-- `pause_campaign` from `src/app.py` lines 271-291: same shape with
`{"paused": true}`. -/
def pause_campaign (http : ReqRec PausedPatch → Except Unit Unit) :
    MutationOutcome × List (ReqRec PausedPatch) :=
  match make_request http "PATCH" ("campaigns/" ++ CAMPAIGN_ID) ⟨true⟩ with
  | (.ok _, trips) =>
    ({ success := true, message := "Campaign paused successfully",
       note := none, http_status := 200 }, trips)
  | (.error _, trips) =>
    ({ success := false, message := "Could not pause campaign via API",
       note := some "You may need to pause the campaign manually in the Instantly.ai dashboard.",
       http_status := 400 }, trips)

/-- A transport that accepts every request: even against it, the start/pause
handlers can only take their failure branch, because `_make_request` has no
`PATCH` dispatch arm. -/
def httpAccepting : ReqRec PausedPatch → Except Unit Unit := fun _ => .ok ()

/-! ### Message preview (`message_preview`, `src/app.py` 327-384) -/

/-- A heterogeneous JSON value, for the fields whose Python value is a
string in one branch and a number / `None` in the other
(`rating`, `review_count`). -/
inductive JVal
  | str (s : String)
  | num (q : Rat)
  | null
deriving DecidableEq, Repr

/-- An element of the campaign's `sequences` list as `message_preview` reads
it: `first_email.get('subject', '')` / `first_email.get('body', '')`. -/
structure SeqMessage where
  subject : Option String
  body : Option String
deriving DecidableEq, Repr

/-- The campaign metadata fields the dashboard touches. -/
structure Campaign where
  name : Option String
  status : Option Int
  daily_limit : Option Int
  sequences : List SeqMessage
deriving DecidableEq, Repr

/-- An enriched record (`ENRICHED_DATA` entry), restricted to the fields
`message_preview` reads.  `totalScore` is kept as an opaque JSON value
(the source only passes it through). -/
structure Enriched where
  title : Option String
  city : Option String
  categoryName : Option String
  totalScore : Option JVal
  reviewsCount : Option Int
deriving DecidableEq, Repr

/-- The `personalization` object of the preview response. -/
structure Personalization where
  company_name : String
  city : String
  category : String
  rating : JVal
  review_count : JVal
deriving DecidableEq, Repr

/-- The enrichment branch of `message_preview` (`src/app.py` 354-366). -/
def enrichedPersonalization (e : Enriched) : Personalization :=
  { company_name := e.title.getD "your practice"
    city := e.city.getD ""
    category := e.categoryName.getD "healthcare provider"
    rating := e.totalScore.getD JVal.null
    review_count := JVal.num ((e.reviewsCount.getD 0 : Int) : Rat) }

/-- The no-enrichment branch of `message_preview` (`src/app.py` 367-374):
the literal placeholder tokens. -/
def placeholderPersonalization : Personalization :=
  { company_name := "\x7b\x7bcompany_name\x7d\x7d"
    city := "\x7b\x7bcity\x7d\x7d"
    category := "\x7b\x7bcategory\x7d\x7d"
    rating := JVal.str "\x7b\x7brating\x7d\x7d"
    review_count := JVal.str "\x7b\x7breview_count\x7d\x7d" }

/-- The preview response: the 404 `'No email sequences found'` outcome, or
the JSON body `{subject, body, personalization, sequence_position,
total_sequences}`. -/
inductive PreviewResult
  | notFound
  | preview (subject body : String) (personalization : Personalization)
      (sequence_position total_sequences : Nat)
deriving DecidableEq, Repr

/-- `message_preview` from `src/app.py` lines 327-384, as a function of the
fetched campaign and the enrichment lookup result for the requested email
(`ENRICHED_DATA.get(email.lower()) if email else None`). -/
def message_preview (campaign : Campaign) (enriched : Option Enriched) :
    PreviewResult :=
  match campaign.sequences with
  | [] => .notFound
  | first_email :: rest =>
    let subject := first_email.subject.getD ""
    let body := first_email.body.getD ""
    let personalization :=
      match enriched with
      | some e => enrichedPersonalization e
      | none => placeholderPersonalization
    .preview subject body personalization 1 (rest.length + 1)

/-! ### Bulk upload (`InstantlyClient.upload_leads_from_json`,
`src/instantly_client.py` 165-236) -/

/-- A source business record, restricted to the field the upload run's
control flow reads (`primary_email`; the remaining fields only shape the
submitted payload). -/
structure SrcLead where
  primary_email : Option String
deriving DecidableEq, Repr

/-- The returned upload summary.  The source also carries the resolved
campaign object, and renders `success_rate` as the fixed-point string
`f"{rate:.1f}%"`; the model keeps the exact rational percentage the string
is rendered from. -/
structure UploadSummary where
  total_leads : Nat
  uploaded : Nat
  success_rate : Rat
deriving DecidableEq, Repr

/-- The per-lead submission loop (`src/instantly_client.py` 212-224):
submit the `n` formatted leads one at a time; `submit i` tells whether the
`i`-th submission succeeds; a failure only bumps the `failed` counter and
the loop continues.  Returns `(total_uploaded, failed)`. -/
def uploadCounts (submit : Nat → Bool) : Nat → Nat × Nat
  | 0 => (0, 0)
  | n + 1 =>
    let uf := uploadCounts submit n
    if submit n then (uf.1 + 1, uf.2) else (uf.1, uf.2 + 1)

/-- `upload_leads_from_json` from `src/instantly_client.py` lines 165-236,
after file read and campaign resolution succeed (the claims condition on
that): filter to leads with a truthy `primary_email`, return `{}` (`none`)
when there are none, otherwise run the submission loop and report
`{"total_leads": len(leads), "uploaded": total_uploaded,
"success_rate": total_uploaded / len(leads_with_emails) * 100}`. -/
def upload_leads_from_json (leads : List SrcLead) (submit : Nat → Bool) :
    Option UploadSummary :=
  let leads_with_emails := leads.filter (fun l => emailTruthy l.primary_email)
  if leads_with_emails.isEmpty then none
  else
    let counts := uploadCounts submit leads_with_emails.length
    some { total_leads := leads.length
           uploaded := counts.1
           success_rate :=
             (counts.1 : Rat) / (leads_with_emails.length : Rat) * 100 }

/-! ## Concrete inputs used by witnesses and counterexamples -/

/-- A clinic-matching lead with `status = 1`. -/
def activeClinic : Lead := ⟨some "lead@clinic.example", some "Sunrise Clinic", some 1⟩

/-- A clinic-matching lead with `status = 0`. -/
def pendingClinic : Lead := ⟨some "lead@clinic.example", some "Sunrise Clinic", some 0⟩

/-- A lead with a usable email whose company name matches no keyword. -/
def bakeryLead : Lead := ⟨some "lead@bakery.example", some "City Bakery", some 1⟩

/-- A lead without an email key whose company name matches a keyword. -/
def noEmailClinic : Lead := ⟨none, some "Clinic", none⟩

/-- 40 leads: 11 clinic matches (6 active, 5 pending) and 29 others. -/
def statsLeads : List Lead :=
  List.replicate 6 activeClinic ++ List.replicate 5 pendingClinic ++
    List.replicate 29 bakeryLead

/-! ## Theorems -/

/-- Unpacking the clinic filter predicate. -/
lemma clinicPred_eq_true {l : Lead} (h : clinicPred l = true) :
    (∃ s, l.email = some s ∧ s ≠ "" ∧ s ≠ "No email") ∧
    ∃ kw, kw ∈ CLINIC_KEYWORDS ∧
      strContains (strLower (l.company_name.getD "")) kw = true := by
  unfold clinicPred at h
  simp only [Bool.and_eq_true] at h
  obtain ⟨⟨htr, hne⟩, hany⟩ := h
  refine ⟨?_, ?_⟩
  · cases he : l.email with
    | none => rw [he] at htr; simp [emailTruthy] at htr
    | some s =>
      rw [he] at htr hne
      refine ⟨s, rfl, ?_, ?_⟩
      · simpa [emailTruthy] using htr
      · simpa using hne
  · simpa [List.any_eq_true] using hany

/-- A clinic-filter member satisfies `usableEmail`. -/
lemma usableEmail_of_clinicPred {l : Lead} (h : clinicPred l = true) :
    usableEmail l = true := by
  unfold clinicPred at h
  unfold usableEmail
  simp only [Bool.and_eq_true] at h ⊢
  exact h.1

/-- C3: every lead in the matching subset has a non-empty email different
from the sentinel `"No email"` and a company name whose lowercasing contains
at least one configured keyword as a substring; conversely, a lead lacking a
usable email is never in the matching subset. -/
theorem clinic_filter_sound (leads : List Lead) (l : Lead) :
    (l ∈ filter_clinic_leads leads →
      (∃ s, l.email = some s ∧ s ≠ "" ∧ s ≠ "No email") ∧
      ∃ kw, kw ∈ CLINIC_KEYWORDS ∧
        strContains (strLower (l.company_name.getD "")) kw = true) ∧
    (usableEmail l = false → l ∉ filter_clinic_leads leads) := by
  constructor
  · intro hl
    exact clinicPred_eq_true (List.mem_filter.mp hl).2
  · intro hu hl
    have := usableEmail_of_clinicPred (List.mem_filter.mp hl).2
    rw [hu] at this
    exact Bool.false_ne_true this

/-- C3 witness: the theorem applied to a concrete matching lead. -/
theorem clinic_filter_sound_witness :
    (∃ s, activeClinic.email = some s ∧ s ≠ "" ∧ s ≠ "No email") ∧
    ∃ kw, kw ∈ CLINIC_KEYWORDS ∧
      strContains (strLower (activeClinic.company_name.getD "")) kw = true :=
  (clinic_filter_sound [activeClinic] activeClinic).1 (by decide)

/-- C4: for `page ≥ 1` and `per_page > 0` the display pagination returns
exactly the slice `[(page-1)*per_page, page*per_page)` of the collection,
reports the total item count, the requested page parameters, and a page
count equal to `⌈total / per_page⌉`. -/
theorem paginate_spec {α : Type} (leads : List α) (page per_page : Nat)
    (hpage : 1 ≤ page) (_hpp : 0 < per_page) :
    (paginate leads page per_page).1 =
      (leads.take (page * per_page)).drop ((page - 1) * per_page) ∧
    (paginate leads page per_page).2.total = leads.length ∧
    (paginate leads page per_page).2.pages = leads.length ⌈/⌉ per_page ∧
    (paginate leads page per_page).2.page = page ∧
    (paginate leads page per_page).2.per_page = per_page := by
  refine ⟨?_, rfl, ?_, rfl, rfl⟩
  · have hmul : page * per_page = (page - 1) * per_page + per_page := by
      cases page with
      | zero => omega
      | succ p => simp [Nat.succ_sub_one, Nat.succ_mul]
    rw [hmul]
    have h := List.drop_take ((page - 1) * per_page + per_page)
      ((page - 1) * per_page) leads
    simpa using h.symm
  · show (leads.length + per_page - 1) / per_page = leads.length ⌈/⌉ per_page
    rw [Nat.ceilDiv_eq_add_pred_div]

set_option maxRecDepth 4000 in
/-- C4 witness: total 237, `per_page` 20, page 12 — the slice has the 17
items at indices 220-236 and the reported page count is 12. -/
theorem paginate_spec_witness :
    (paginate (List.range 237) 12 20).1 =
      ((List.range 237).take (12 * 20)).drop ((12 - 1) * 20) ∧
    (paginate (List.range 237) 12 20).1.length = 17 ∧
    (paginate (List.range 237) 12 20).1 = (List.range 17).map (fun i => 220 + i) ∧
    (paginate (List.range 237) 12 20).2.pages = 12 ∧
    (paginate (List.range 237) 12 20).2.total = 237 :=
  ⟨(paginate_spec (List.range 237) 12 20 (by decide) (by decide)).1,
   by decide, by decide, by decide, by decide⟩

/-- C5: the stats object reports the drained total, the matching count, their
difference, and the status-1 / status-0 counts among the matches; a 40-lead
set with 11 matches (6 active, 5 pending) yields
`{total_leads: 40, clinic_leads: 11, other_leads: 29, active_leads: 6,
pending_leads: 5}`. -/
theorem campaign_stats_counts (leads : List Lead)
    (h40 : leads.length = 40)
    (h11 : (filter_clinic_leads leads).length = 11)
    (h6 : ((filter_clinic_leads leads).filter (fun l => l.status == some 1)).length = 6)
    (h5 : ((filter_clinic_leads leads).filter (fun l => l.status == some 0)).length = 5) :
    campaign_stats leads =
      { total_leads := 40, clinic_leads := 11, other_leads := 29,
        active_leads := 6, pending_leads := 5 } := by
  unfold campaign_stats
  simp only [h40, h11, h6, h5]

/-- C5 witness: the theorem applied to an explicit 40-lead set. -/
theorem campaign_stats_counts_witness :
    campaign_stats statsLeads =
      { total_leads := 40, clinic_leads := 11, other_leads := 29,
        active_leads := 6, pending_leads := 5 } :=
  campaign_stats_counts statsLeads (by decide) (by decide) (by decide) (by decide)

/-- Every email in the clinic email set is usable (present, non-empty,
not the sentinel). -/
lemma mem_clinicEmails {leads : List Lead} {e : Option String}
    (he : e ∈ clinicEmails leads) :
    ∃ s, e = some s ∧ s ≠ "" ∧ s ≠ "No email" := by
  unfold clinicEmails at he
  obtain ⟨l, hl, rfl⟩ := List.mem_map.mp he
  exact (clinicPred_eq_true (List.mem_filter.mp hl).2).1

/-- C6 counterexample: a lead lacking a usable email does not appear "in
neither set" — the code places it in the `other` set, because its (absent)
email is not among the matching leads' emails. -/
theorem unusable_email_lead_lands_in_other :
    usableEmail noEmailClinic = false ∧
    filter_clinic_leads [noEmailClinic] = [] ∧
    other_leads [noEmailClinic] = [noEmailClinic] := by decide

/-- C6 (amended): no lead appears in both sets; a lead lacking a usable
email appears in the `other` set and never the matching set; a lead outside
the matching set appears in `other` exactly when its email differs from
every matching lead's email (so a usable-email lead appears in exactly one
set unless another matching lead shares its email). -/
theorem clinic_other_partition (leads : List Lead) (l : Lead) (hl : l ∈ leads) :
    (l ∈ filter_clinic_leads leads → l ∉ other_leads leads) ∧
    (usableEmail l = false →
      l ∉ filter_clinic_leads leads ∧ l ∈ other_leads leads) ∧
    (l ∉ filter_clinic_leads leads →
      (l ∈ other_leads leads ↔ l.email ∉ clinicEmails leads)) := by
  have hother : l ∈ other_leads leads ↔ l ∈ leads ∧ l.email ∉ clinicEmails leads := by
    unfold other_leads
    simp [List.mem_filter]
  refine ⟨?_, ?_, ?_⟩
  · intro hcl hmem
    exact (hother.mp hmem).2 (List.mem_map.mpr ⟨l, hcl, rfl⟩)
  · intro hu
    constructor
    · intro hcl
      have := usableEmail_of_clinicPred (List.mem_filter.mp hcl).2
      rw [hu] at this
      exact Bool.false_ne_true this
    · refine hother.mpr ⟨hl, ?_⟩
      intro hmem
      obtain ⟨s, hs, hne, hns⟩ := mem_clinicEmails hmem
      unfold usableEmail emailTruthy at hu
      rw [hs] at hu
      simp [hne, hns] at hu
  · intro _
    constructor
    · intro hmem
      exact (hother.mp hmem).2
    · intro hnot
      exact hother.mpr ⟨hl, hnot⟩

/-- C6 amended witness: the lead without an email, in a one-lead collection,
is outside the matching set and inside the `other` set. -/
theorem clinic_other_partition_witness :
    noEmailClinic ∉ filter_clinic_leads [noEmailClinic] ∧
    noEmailClinic ∈ other_leads [noEmailClinic] :=
  (clinic_other_partition [noEmailClinic] noEmailClinic (by decide)).2.1 (by decide)

/-- C10: for every method outside the dispatch set {GET, POST, PUT, DELETE},
`_make_request` fails (with the `UnboundLocalError` of the unbound
`response`) and performs no HTTP round-trip — for every transport oracle the
result is the same and the list of issued requests is empty. -/
theorem make_request_unknown_method {α β : Type}
    (http : ReqRec α → Except Unit β) (method endpoint : String) (data : α)
    (h1 : method ≠ "GET") (h2 : method ≠ "POST") (h3 : method ≠ "PUT")
    (h4 : method ≠ "DELETE") :
    make_request http method endpoint data =
      (Except.error PyErr.unboundLocal, []) := by
  simp [make_request, h1, h2, h3, h4]

/-- A transport (for payload `Bool`, response `Unit`) accepting everything. -/
def httpUnit : ReqRec Bool → Except Unit Unit := fun _ => .ok ()

/-- C10 witness: a `PATCH` through the generic client, against a transport
that would accept anything, still fails without issuing a request. -/
theorem make_request_unknown_method_witness :
    make_request httpUnit "PATCH" "campaigns/test" true =
      (Except.error PyErr.unboundLocal, []) :=
  make_request_unknown_method httpUnit "PATCH" "campaigns/test" true
    (by decide) (by decide) (by decide) (by decide)

/-- C1: the start and pause handlers never issue the claimed mutation.  Both
call `_make_request` with method `"PATCH"`, which no dispatch branch of
`_make_request` handles, so even against a transport that accepts every
request the call raises before any round-trip and each handler always
returns the structured `success: false` body with status 400 and an empty
list of issued upstream requests. -/
theorem start_pause_never_reach_upstream :
    start_campaign httpAccepting =
      ({ success := false, message := "Could not start campaign via API",
         note := some "You may need to start the campaign manually in the Instantly.ai dashboard.",
         http_status := 400 }, []) ∧
    pause_campaign httpAccepting =
      ({ success := false, message := "Could not pause campaign via API",
         note := some "You may need to pause the campaign manually in the Instantly.ai dashboard.",
         http_status := 400 }, []) := by
  constructor <;> rfl

/-- C8: when the fetched campaign has a nonempty sequence list, the preview
takes its subject and body from the first element, and the personalization
object is built from the enrichment record when one exists for the email
(each known placeholder field mapped to the enrichment-derived value) and
echoes the five literal `\x7b\x7b...\x7d\x7d` placeholder tokens when none
exists. -/
theorem message_preview_spec (campaign : Campaign)
    (enriched : Option Enriched) (first : SeqMessage) (rest : List SeqMessage)
    (hseq : campaign.sequences = first :: rest) :
    (enriched = none →
      message_preview campaign enriched =
        .preview (first.subject.getD "") (first.body.getD "")
          placeholderPersonalization 1 (rest.length + 1) ∧
      placeholderPersonalization.company_name = "\x7b\x7bcompany_name\x7d\x7d" ∧
      placeholderPersonalization.city = "\x7b\x7bcity\x7d\x7d" ∧
      placeholderPersonalization.category = "\x7b\x7bcategory\x7d\x7d" ∧
      placeholderPersonalization.rating = JVal.str "\x7b\x7brating\x7d\x7d" ∧
      placeholderPersonalization.review_count =
        JVal.str "\x7b\x7breview_count\x7d\x7d") ∧
    (∀ e, enriched = some e →
      message_preview campaign enriched =
        .preview (first.subject.getD "") (first.body.getD "")
          (enrichedPersonalization e) 1 (rest.length + 1) ∧
      (enrichedPersonalization e).company_name = e.title.getD "your practice" ∧
      (enrichedPersonalization e).city = e.city.getD "" ∧
      (enrichedPersonalization e).category =
        e.categoryName.getD "healthcare provider" ∧
      (enrichedPersonalization e).rating = e.totalScore.getD JVal.null ∧
      (enrichedPersonalization e).review_count =
        JVal.num ((e.reviewsCount.getD 0 : Int) : Rat)) := by
  constructor
  · rintro rfl
    refine ⟨?_, rfl, rfl, rfl, rfl, rfl⟩
    unfold message_preview
    rw [hseq]
  · rintro e rfl
    refine ⟨?_, rfl, rfl, rfl, rfl, rfl⟩
    unfold message_preview
    rw [hseq]

/-- A one-message campaign used by the preview witness. -/
def previewCampaign : Campaign :=
  ⟨some "WA Integrative Medicine", some 1, some 50,
    [⟨some "Quick Question", some "Hi there"⟩]⟩

/-- C8 witness: the theorem applied to a concrete one-message campaign with
no enrichment record: the preview echoes the literal placeholder tokens. -/
theorem message_preview_spec_witness :
    message_preview previewCampaign none =
      .preview "Quick Question" "Hi there" placeholderPersonalization 1 1 ∧
    placeholderPersonalization.company_name = "\x7b\x7bcompany_name\x7d\x7d" :=
  ⟨((message_preview_spec previewCampaign none
      ⟨some "Quick Question", some "Hi there"⟩ [] rfl).1 rfl).1,
   ((message_preview_spec previewCampaign none
      ⟨some "Quick Question", some "Hi there"⟩ [] rfl).1 rfl).2.1⟩

/-- Successes plus failures account for every attempted submission: a failed
submission bumps `failed` and the loop continues. -/
lemma uploadCounts_sum (submit : Nat → Bool) (n : Nat) :
    (uploadCounts submit n).1 + (uploadCounts submit n).2 = n := by
  induction n with
  | zero => rfl
  | succ n ih =>
    unfold uploadCounts
    cases h : submit n <;> simp [h] <;> omega

/-- The uploaded counter counts exactly the successful submissions. -/
lemma uploadCounts_fst (submit : Nat → Bool) (n : Nat) :
    (uploadCounts submit n).1 = ((List.range n).filter submit).length := by
  induction n with
  | zero => rfl
  | succ n ih =>
    rw [List.range_succ]
    unfold uploadCounts
    cases h : submit n <;> simp [h, List.filter_append, ih]

/-- C9 counterexample: three loaded records of which two are eligible, with
the second submission failing.  The returned summary is
`{total_leads: 3, uploaded: 1, success_rate: 50%}`: its `total_leads` field
is the count of all loaded records (3), not the number of eligible records
(2), and no field of the summary carries the eligible count. -/
theorem upload_summary_total_is_loaded_count :
    upload_leads_from_json
        [⟨some "a@x.com"⟩, ⟨some "b@x.com"⟩, ⟨none⟩] (fun i => i == 0) =
      some { total_leads := 3, uploaded := 1, success_rate := 50 } ∧
    (([⟨some "a@x.com"⟩, ⟨some "b@x.com"⟩, (⟨none⟩ : SrcLead)]).filter
      (fun l => emailTruthy l.primary_email)).length = 2 := by
  constructor
  · have h50 : ((1 : Nat) : Rat) / ((2 : Nat) : Rat) * 100 = 50 := by norm_num
    have hstep : upload_leads_from_json
        [⟨some "a@x.com"⟩, ⟨some "b@x.com"⟩, ⟨none⟩] (fun i => i == 0) =
        some { total_leads := 3, uploaded := 1,
               success_rate := ((1 : Nat) : Rat) / ((2 : Nat) : Rat) * 100 } := rfl
    rw [h50] at hstep
    exact hstep
  · decide

/-- C9 (amended): for every run past file read and campaign resolution with
at least one eligible record, per-lead failures do not abort the run (every
eligible record is attempted: successes and failures sum to the eligible
count), and the summary reports the uploaded count, the count of all loaded
records, and the success rate as a percentage over the eligible records. -/
theorem upload_summary_spec (leads : List SrcLead) (submit : Nat → Bool)
    (h : leads.filter (fun l => emailTruthy l.primary_email) ≠ []) :
    ∃ s, upload_leads_from_json leads submit = some s ∧
      s.total_leads = leads.length ∧
      s.uploaded =
        ((List.range
            ((leads.filter (fun l => emailTruthy l.primary_email)).length)).filter
          (fun i => submit i)).length ∧
      s.uploaded +
          (uploadCounts submit
            ((leads.filter (fun l => emailTruthy l.primary_email)).length)).2 =
        (leads.filter (fun l => emailTruthy l.primary_email)).length ∧
      s.success_rate =
        (s.uploaded : Rat) /
          ((leads.filter (fun l => emailTruthy l.primary_email)).length : Rat)
          * 100 := by
  have hne : (leads.filter (fun l => emailTruthy l.primary_email)).isEmpty = false := by
    cases hcase : leads.filter (fun l => emailTruthy l.primary_email) with
    | nil => exact absurd hcase h
    | cons a t => rfl
  refine ⟨{ total_leads := leads.length,
            uploaded := (uploadCounts submit
              ((leads.filter (fun l => emailTruthy l.primary_email)).length)).1,
            success_rate := ((uploadCounts submit
                ((leads.filter (fun l => emailTruthy l.primary_email)).length)).1 : Rat) /
              ((leads.filter (fun l => emailTruthy l.primary_email)).length : Rat)
              * 100 }, ?_, rfl, ?_, ?_, rfl⟩
  · simp [upload_leads_from_json, hne]
  · exact uploadCounts_fst submit _
  · exact uploadCounts_sum submit _

/-- C9 amended witness: the theorem applied to the three-record input with
a failing second submission. -/
theorem upload_summary_spec_witness :
    ∃ s, upload_leads_from_json
        [⟨some "c@x.com"⟩, ⟨some "d@x.com"⟩, ⟨none⟩] (fun i => i == 0) = some s ∧
      s.total_leads = 3 ∧
      s.uploaded = ((List.range 2).filter (fun i => (i == 0 : Bool))).length ∧
      s.uploaded + (uploadCounts (fun i => i == 0) 2).2 = 2 ∧
      s.success_rate = (s.uploaded : Rat) / (2 : Rat) * 100 := by
  have h := upload_summary_spec
    [⟨some "c@x.com"⟩, ⟨some "d@x.com"⟩, ⟨none⟩] (fun i => i == 0) (by decide)
  simpa using h

/-- The drain loop against an upstream that answers `k` full pages from
offset `skip` and then a stopping response: it appends the pages in order
(plus the leads of a final short page), and issues exactly the `k + 1`
requests at offsets `skip, skip + 100, ..., skip + 100 * k`, each with
limit 100. -/
lemma drainLoop_run :
    ∀ (k : Nat) (upstream : Nat → DrainResp) (P : Nat → List Lead)
      (fuel skip : Nat) (acc : List Lead) (reqs : List (Nat × Nat)),
      (∀ j, j < k →
        upstream (skip + 100 * j) = .page (some (P j)) ∧ (P j).length = 100) →
      stopResp (upstream (skip + 100 * k)) →
      k + 1 ≤ fuel →
      drainLoop upstream fuel skip acc reqs =
        (acc ++ ((List.range k).map P).flatten ++
           stopLeads (upstream (skip + 100 * k)),
         reqs ++ (List.range (k + 1)).map (fun i => (skip + 100 * i, 100))) := by
  intro k
  induction k with
  | zero =>
    intro upstream P fuel skip acc reqs _ hstop hfuel
    match fuel, hfuel with
    | f + 1, _ =>
      rw [Nat.mul_zero, Nat.add_zero] at hstop
      have hr1 : List.range 1 = [0] := rfl
      unfold drainLoop
      cases hresp : upstream skip with
      | err => simp [hresp, stopLeads, hr1]
      | page items =>
        cases items with
        | none => simp [hresp, stopLeads, hr1]
        | some xs =>
          rw [hresp] at hstop
          have hlt : xs.length < 100 := hstop
          cases hxs : xs.isEmpty with
          | true =>
            have hnil : xs = [] := by
              cases xs with
              | nil => rfl
              | cons a t => simp at hxs
            simp [hresp, hxs, stopLeads, hnil, hr1]
          | false => simp [hresp, hxs, hlt, stopLeads, hr1]
  | succ k ih =>
    intro upstream P fuel skip acc reqs hfull hstop hfuel
    match fuel, hfuel with
    | f + 1, _ =>
      have h0 := hfull 0 (Nat.succ_pos k)
      have h0eq : upstream skip = .page (some (P 0)) := by
        simpa using h0.1
      have h0len : (P 0).length = 100 := h0.2
      have hne : (P 0).isEmpty = false := by
        cases hP : P 0 with
        | nil => rw [hP] at h0len; simp at h0len
        | cons a t => rfl
      have hnlt : ¬ (P 0).length < 100 := by omega
      unfold drainLoop
      rw [h0eq]
      simp only [hne, Bool.false_eq_true, if_false, hnlt]
      rw [ih upstream (fun j => P (j + 1)) f (skip + 100) (acc ++ P 0)
        (reqs ++ [(skip, 100)]) ?_ ?_ ?_]
      · have harith : skip + 100 + 100 * k = skip + 100 * (k + 1) := by ring
        rw [harith]
        simp only [Prod.mk.injEq]
        constructor
        · rw [List.range_succ_eq_map, List.map_cons, List.map_map,
            List.flatten_cons]
          rw [show (P ∘ Nat.succ) = (fun j => P (j + 1)) from rfl]
          simp [List.append_assoc]
        · rw [List.range_succ_eq_map (n := k + 1), List.map_cons, List.map_map]
          have hfun :
              ((fun i => (skip + 100 * i, 100)) ∘ Nat.succ) =
                (fun i => (skip + 100 + 100 * i, 100)) := by
            funext i
            have h1 : skip + 100 * (i + 1) = skip + 100 + 100 * i := by ring
            simp [Function.comp, Nat.succ_eq_add_one, h1]
          rw [hfun]
          simp [List.append_assoc]
      · intro j hj
        have hj1 := hfull (j + 1) (by omega)
        have harith2 : skip + 100 * (j + 1) = skip + 100 + 100 * j := by ring
        rw [harith2] at hj1
        exact hj1
      · have harith3 : skip + 100 * (k + 1) = skip + 100 + 100 * k := by ring
        rw [harith3] at hstop
        exact hstop
      · omega

/-- C2: against an upstream answering `n` full pages of 100 at offsets
`0, 100, ..., 100*(n-1)` and then a short page at offset `100*n`, the drain
returns the concatenation of all pages in order and issues exactly the
`n + 1` requests `(0,100), (100,100), ..., (100*n, 100)` — offsets advance
by 100 per successful response, the limit is always 100, and the loop stops
at the first response with fewer than 100 items (no further request). -/
theorem drain_collects_pages (upstream : Nat → DrainResp) (P : Nat → List Lead)
    (n : Nat) (last : List Lead) (fuel : Nat)
    (hfull : ∀ j, j < n →
      upstream (100 * j) = .page (some (P j)) ∧ (P j).length = 100)
    (hlast : upstream (100 * n) = .page (some last))
    (hshort : last.length < 100)
    (hfuel : n + 1 ≤ fuel) :
    get_all_campaign_leads upstream fuel =
      (((List.range n).map P).flatten ++ last,
       (List.range (n + 1)).map (fun i => (100 * i, 100))) := by
  have h := drainLoop_run n upstream P fuel 0 [] []
    (by simpa using hfull) (by rw [Nat.zero_add, hlast]; exact hshort) hfuel
  rw [Nat.zero_add, hlast] at h
  unfold get_all_campaign_leads
  rw [h]
  simp [stopLeads]

/-- C7: against an upstream answering `k` full pages of 100 and then an
error at offset `100*k`, the drain returns exactly the records accumulated
from the successful responses (no failure escapes) and stops after the
failing request. -/
theorem drain_returns_partial_on_error (upstream : Nat → DrainResp)
    (P : Nat → List Lead) (k : Nat) (fuel : Nat)
    (hfull : ∀ j, j < k →
      upstream (100 * j) = .page (some (P j)) ∧ (P j).length = 100)
    (herr : upstream (100 * k) = .err)
    (hfuel : k + 1 ≤ fuel) :
    get_all_campaign_leads upstream fuel =
      (((List.range k).map P).flatten,
       (List.range (k + 1)).map (fun i => (100 * i, 100))) := by
  have h := drainLoop_run k upstream P fuel 0 [] []
    (by simpa using hfull) (by rw [Nat.zero_add, herr]; trivial) hfuel
  rw [Nat.zero_add, herr] at h
  unfold get_all_campaign_leads
  rw [h]
  simp [stopLeads]

/-- A distinguishable lead for drain witnesses. -/
def mkLead (i : Nat) : Lead :=
  ⟨some "x@example.com", some "Example", some (Int.ofNat i)⟩

/-- A page of 100 distinct leads starting at `skip`, page 37 at offset 200. -/
def pagesC2 (j : Nat) : List Lead :=
  (List.range 100).map (fun t => mkLead (100 * j + t))

/-- A mocked upstream returning pages of sizes `[100, 100, 37]`. -/
def upstreamC2 : Nat → DrainResp := fun skip =>
  if skip = 0 ∨ skip = 100 then
    .page (some ((List.range 100).map (fun t => mkLead (skip + t))))
  else if skip = 200 then
    .page (some ((List.range 37).map (fun t => mkLead (200 + t))))
  else .err

set_option maxRecDepth 8000 in
/-- C2 witness: against the `[100, 100, 37]` upstream the drain returns
exactly the 237 records in page order and issues exactly the three requests
at offsets 0, 100, 200 (no fourth request). -/
theorem drain_collects_pages_witness :
    get_all_campaign_leads upstreamC2 10 =
      ((List.range 237).map mkLead, [(0, 100), (100, 100), (200, 100)]) := by
  have h := drain_collects_pages upstreamC2 pagesC2 2
    ((List.range 37).map (fun t => mkLead (200 + t))) 10
    (by decide) (by decide) (by decide) (by decide)
  exact h.trans (by decide)

/-- A mocked upstream whose second page request errors. -/
def upstreamC7 : Nat → DrainResp := fun skip =>
  if skip = 0 then .page (some ((List.range 100).map mkLead))
  else .err

set_option maxRecDepth 8000 in
/-- C7 witness: a full first page of 100 records, then an error on the
second request: the drain returns exactly the first page's records (and the
failing request was the last one issued). -/
theorem drain_returns_partial_on_error_witness :
    get_all_campaign_leads upstreamC7 10 =
      ((List.range 100).map mkLead, [(0, 100), (100, 100)]) := by
  have h := drain_returns_partial_on_error upstreamC7
    (fun _ => (List.range 100).map mkLead) 1 10
    (by decide) (by decide) (by decide)
  exact h.trans (by decide)

end InstantlyDashboard
